import Mathlib

/-!
Verification development for the Event Management API (src/main.py):
a FastAPI CRUD service over four entity collections (events, attendees,
venues, bookings) plus binary asset upload/fetch (event posters, promo
videos, venue photos), backed by MongoDB.

Shallow embedding:
* a BSON value is `Value`; a stored document is an association list
  `Doc = List (String × Value)` with first-occurrence lookup;
* the Mongo store is `DB`: one document list per collection (natural
  order = insertion order) plus an id-generation counter; ObjectId
  generation is modelled by rendering the counter as a 24-hex string;
* `ObjectId.is_valid` is `is_valid` (24 chars, all hex digits) and
  string→ObjectId conversion normalises hex case, mirroring the fact
  that ObjectIds are 12 bytes rendered canonically in lowercase;
* each HTTP handler is a pure function; mutating handlers return the
  new store paired with the response; `HTTPException` is `HErr.http`;
* store unavailability (`ServerSelectionTimeoutError`) is the flag
  `up : Bool` threaded to every handler: each modelled store call
  raises `HErr.storeDown` when `up = false`, which the application
  boundary (`app_dispatch`) maps to the fixed 503 response, exactly as
  the registered `mongo_unavailable_handler` does;
* wall-clock time for asset upload timestamps is an explicit `now : Nat`
  argument.
-/

namespace EventMgmt

/-- BSON-ish value stored in a document: string, integer, native
ObjectId (carried as its canonical lowercase 24-hex string), raw bytes,
UTC timestamp, or null. -/
inductive Value where
  | str : String → Value
  | int : Int → Value
  | oid : String → Value
  | bytes : List Nat → Value
  | time : Nat → Value
  | null : Value
deriving DecidableEq

/-- A stored document: association list from field name to value;
lookup reads the first occurrence. Documents built by the handlers have
pairwise-distinct keys. -/
abbrev Doc := List (String × Value)

/-- Dictionary lookup `doc[k]` (first occurrence). -/
def getField : Doc → String → Option Value
  | [], _ => none
  | p :: ps, k => if p.1 = k then some p.2 else getField ps k

/-- Dictionary assignment `doc[k] = v` (also models a Mongo `$set` of a
single field): replaces the first occurrence of `k`, or appends the new
field at the end if `k` is absent. -/
def setField : Doc → String → Value → Doc
  | [], k, v => [(k, v)]
  | p :: ps, k, v => if p.1 = k then (k, v) :: ps else p :: setField ps k v

/-- Mongo `$set` with a whole update document: set each field in turn. -/
def setFields (d : Doc) (upd : Doc) : Doc :=
  upd.foldl (fun a p => setField a p.1 p.2) d

/-- An HTTP error response: `HTTPException(status_code, detail)`. -/
structure Err where
  status : Nat
  detail : String
deriving DecidableEq

/-- What a handler can raise: an `HTTPException`, or the Mongo driver's
`ServerSelectionTimeoutError` when the store cannot be reached. -/
inductive HErr where
  | http : Err → HErr
  | storeDown : HErr
deriving DecidableEq

/-- Hex digit check (both cases), as accepted by `ObjectId(...)`'s
underlying `bytes.fromhex`. -/
def isHexDigit (c : Char) : Bool :=
  (48 ≤ c.toNat && c.toNat ≤ 57) || (97 ≤ c.toNat && c.toNat ≤ 102) ||
    (65 ≤ c.toNat && c.toNat ≤ 70)

/-- Model of `bson.ObjectId.is_valid` on strings: exactly 24 characters
and every character a hex digit. -/
def is_valid (s : String) : Bool :=
  s.data.length == 24 && s.data.all isHexDigit

/-- Lowercase a hex digit (identity off the range A–F). ObjectId parsing
is case-insensitive and the canonical rendering is lowercase. -/
def lowerHexChar (c : Char) : Char :=
  if 65 ≤ c.toNat && c.toNat ≤ 70 then Char.ofNat (c.toNat + 32) else c

/-- Canonical (lowercase) form of a hex id string: `str(ObjectId(s))`
for a valid input `s`. -/
def normOid (s : String) : String :=
  ⟨s.data.map lowerHexChar⟩

/-- Model of the helper `oid` in src/main.py: validate and convert a
string to a MongoDB ObjectId, raising 400 "Invalid id format" when the
string is not a valid ObjectId. Pure: no store access. -/
def oid (id_str : String) : Except Err String :=
  if is_valid id_str then .ok (normOid id_str) else .error ⟨400, "Invalid id format"⟩

/-- The single hex digit character for a value below 16 (lowercase). -/
def hexDigitChar : Nat → Char
  | 0 => '0' | 1 => '1' | 2 => '2' | 3 => '3' | 4 => '4'
  | 5 => '5' | 6 => '6' | 7 => '7' | 8 => '8' | 9 => '9'
  | 10 => 'a' | 11 => 'b' | 12 => 'c' | 13 => 'd' | 14 => 'e' | 15 => 'f'
  | _ => '0'

/-- Big-endian rendering of `n` in `k` hex digits (most significant
first, truncating above `16^k`). -/
def natToHexAux : Nat → Nat → List Char
  | 0, _ => []
  | k + 1, n => natToHexAux k (n / 16) ++ [hexDigitChar (n % 16)]

/-- Store-side ObjectId generation, modelled as rendering the store's
id counter as a canonical 24-hex string. -/
def genId (n : Nat) : String :=
  ⟨natToHexAux 24 n⟩

theorem length_natToHexAux (k n : Nat) : (natToHexAux k n).length = k := by
  induction k generalizing n with
  | zero => rfl
  | succ k ih => simp [natToHexAux, ih]

theorem isHexDigit_hexDigitChar (d : Nat) (h : d < 16) :
    isHexDigit (hexDigitChar d) = true := by
  interval_cases d <;> decide

theorem lowerHexChar_hexDigitChar (d : Nat) (h : d < 16) :
    lowerHexChar (hexDigitChar d) = hexDigitChar d := by
  interval_cases d <;> decide

theorem mem_natToHexAux_isHexDigit (k n : Nat) :
    ∀ c ∈ natToHexAux k n, isHexDigit c = true := by
  induction k generalizing n with
  | zero => intro c hc; cases hc
  | succ k ih =>
    intro c hc
    rcases List.mem_append.mp hc with h | h
    · exact ih _ c h
    · rcases List.mem_singleton.mp h with rfl
      exact isHexDigit_hexDigitChar _ (Nat.mod_lt _ (by omega))

theorem map_lowerHexChar_natToHexAux (k n : Nat) :
    (natToHexAux k n).map lowerHexChar = natToHexAux k n := by
  induction k generalizing n with
  | zero => rfl
  | succ k ih =>
    simp [natToHexAux, ih, lowerHexChar_hexDigitChar _ (Nat.mod_lt _ (by omega))]

theorem is_valid_genId (n : Nat) : is_valid (genId n) = true := by
  simp only [is_valid, genId, Bool.and_eq_true, beq_iff_eq]
  refine ⟨length_natToHexAux 24 n, ?_⟩
  exact List.all_eq_true.mpr (fun c hc => mem_natToHexAux_isHexDigit 24 n c hc)

theorem normOid_genId (n : Nat) : normOid (genId n) = genId n := by
  simp [normOid, genId, map_lowerHexChar_natToHexAux]

theorem oid_genId (n : Nat) : oid (genId n) = .ok (genId n) := by
  simp [oid, is_valid_genId, normOid_genId]

/-- Python `str(...)` on the values that can sit in an `_id` field (an
ObjectId renders as its hex string). Bytes and timestamps never appear
as `_id` values in this service. -/
def valueStr : Value → String
  | .str s => s
  | .oid s => s
  | .int n => toString n
  | .bytes _ => ""
  | .time _ => ""
  | .null => "None"

/-- Model of `fix_id` in src/main.py: convert the `_id` field of a
document to its string form for JSON responses. Touches no other field. -/
def fix_id (doc : Doc) : Doc :=
  match getField doc "_id" with
  | some v => setField doc "_id" (.str (valueStr v))
  | none => doc

/-- The `Event` request model: all fields required, strings with
`min_length=1`, `max_attendees ≥ 1`. -/
structure Event where
  name : String
  description : String
  date : String
  venue_id : String
  max_attendees : Int
deriving DecidableEq

/-- Pydantic validation of an `Event` payload. -/
def Event.Valid (e : Event) : Prop :=
  1 ≤ e.name.length ∧ 1 ≤ e.description.length ∧ 1 ≤ e.date.length ∧
    1 ≤ e.venue_id.length ∧ 1 ≤ e.max_attendees

/-- `event.model_dump()`: the document inserted or `$set` for an event. -/
def Event.model_dump (e : Event) : Doc :=
  [("name", .str e.name), ("description", .str e.description),
   ("date", .str e.date), ("venue_id", .str e.venue_id),
   ("max_attendees", .int e.max_attendees)]

/-- Modelled from the spec: pydantic's `EmailStr` (the email-validator
library is not part of this repository); per the spec an attendee email
"must match valid email syntax", approximated as nonempty local part,
an `@`, and a domain containing a dot. Used only as a validation
hypothesis, never by any handler. -/
def isEmailLike (s : String) : Bool :=
  match s.splitOn "@" with
  | [local_part, domain] =>
      decide (1 ≤ local_part.length) && decide (2 ≤ (domain.splitOn ".").length) &&
        (domain.splitOn ".").all (fun p => decide (1 ≤ p.length))
  | _ => false

/-- The `Attendee` request model: `name` with `min_length=1`, `email`
an `EmailStr`, `phone` optional. -/
structure Attendee where
  name : String
  email : String
  phone : Option String
deriving DecidableEq

/-- Pydantic validation of an `Attendee` payload. -/
def Attendee.Valid (a : Attendee) : Prop :=
  1 ≤ a.name.length ∧ isEmailLike a.email = true

/-- `attendee.model_dump()`: `None` for an omitted phone becomes null. -/
def Attendee.model_dump (a : Attendee) : Doc :=
  [("name", .str a.name), ("email", .str a.email),
   ("phone", match a.phone with | some p => .str p | none => .null)]

/-- The `Venue` request model. -/
structure Venue where
  name : String
  address : String
  capacity : Int
deriving DecidableEq

/-- Pydantic validation of a `Venue` payload. -/
def Venue.Valid (v : Venue) : Prop :=
  1 ≤ v.name.length ∧ 1 ≤ v.address.length ∧ 1 ≤ v.capacity

/-- `venue.model_dump()`. -/
def Venue.model_dump (v : Venue) : Doc :=
  [("name", .str v.name), ("address", .str v.address),
   ("capacity", .int v.capacity)]

/-- The `Booking` request model. -/
structure Booking where
  event_id : String
  attendee_id : String
  ticket_type : String
  quantity : Int
deriving DecidableEq

/-- Pydantic validation of a `Booking` payload. -/
def Booking.Valid (b : Booking) : Prop :=
  1 ≤ b.event_id.length ∧ 1 ≤ b.attendee_id.length ∧
    1 ≤ b.ticket_type.length ∧ 1 ≤ b.quantity

/-- `booking.model_dump()`. -/
def Booking.model_dump (b : Booking) : Doc :=
  [("event_id", .str b.event_id), ("attendee_id", .str b.attendee_id),
   ("ticket_type", .str b.ticket_type), ("quantity", .int b.quantity)]

/-- An uploaded file: `file.filename`, `file.content_type`, and the
bytes returned by `await file.read()`. -/
structure UploadFile where
  filename : String
  content_type : String
  content : List Nat
deriving DecidableEq

/-- The Mongo database `event_management_db`: one collection (document
list in natural = insertion order) per entity type and per asset kind,
plus the counter driving ObjectId generation. -/
structure DB where
  events : List Doc := []
  attendees : List Doc := []
  venues : List Doc := []
  bookings : List Doc := []
  event_posters : List Doc := []
  promo_videos : List Doc := []
  venue_photos : List Doc := []
  nextId : Nat := 0
deriving DecidableEq

/-- A successful HTTP response body. -/
inductive Resp where
  | statusOk : Resp
  | created : String → String → Resp
  | msg : String → Resp
  | doc : Doc → Resp
  | docs : List Doc → Resp
  | file : List Nat → String → Resp
deriving DecidableEq

/-- `find_one({"_id": i})`: first document in natural order whose `_id`
equals the given ObjectId. -/
def find_one : List Doc → String → Option Doc
  | [], _ => none
  | d :: ds, i => if getField d "_id" = some (.oid i) then some d else find_one ds i

/-- `update_one({"_id": i}, {"$set": upd})`: apply the `$set` to the
first matching document; returns `(matched_count, new collection)`. -/
def update_one : List Doc → String → Doc → Nat × List Doc
  | [], _, _ => (0, [])
  | d :: ds, i, upd =>
      if getField d "_id" = some (.oid i) then (1, setFields d upd :: ds)
      else
        let r := update_one ds i upd
        (r.1, d :: r.2)

/-- `delete_one({"_id": i})`: remove the first matching document;
returns `(deleted_count, new collection)`. -/
def delete_one : List Doc → String → Nat × List Doc
  | [], _ => (0, [])
  | d :: ds, i =>
      if getField d "_id" = some (.oid i) then (1, ds)
      else
        let r := delete_one ds i
        (r.1, d :: r.2)

/-- Model of `GET /` (`root`): health check, no store access. -/
def root : Resp := .statusOk

/-- The fixed 503 response produced by `mongo_unavailable_handler` when
the Mongo driver raises `ServerSelectionTimeoutError`. -/
def mongo_unavailable_handler : Err :=
  ⟨503, "Database unavailable (MongoDB connection failed). Check Atlas Network Access allowlist and MONGO_URI/MONGODB_URL."⟩

/-- Model of `POST /events` (`create_event`). -/
def create_event (up : Bool) (event : Event) (db : DB) : (Except HErr Resp) × DB :=
  if up then
    let newId := genId db.nextId
    (.ok (.created "Event created" newId),
     { db with events := db.events ++ [("_id", Value.oid newId) :: event.model_dump],
               nextId := db.nextId + 1 })
  else (.error .storeDown, db)

/-- Model of `GET /events` (`list_events`): `find().to_list(100)`. -/
def list_events (up : Bool) (db : DB) : Except HErr Resp :=
  if up then .ok (.docs ((db.events.take 100).map fix_id)) else .error .storeDown

/-- Model of `GET /events/{id}` (`get_event`): `oid` runs before the
store call, so an invalid id yields 400 whether or not the store is up. -/
def get_event (up : Bool) (id : String) (db : DB) : Except HErr Resp :=
  match oid id with
  | .error e => .error (.http e)
  | .ok i =>
      if up then
        match find_one db.events i with
        | none => .error (.http ⟨404, "Event not found"⟩)
        | some doc => .ok (.doc (fix_id doc))
      else .error .storeDown

/-- Model of `PUT /events/{id}` (`update_event`). -/
def update_event (up : Bool) (id : String) (event : Event) (db : DB) :
    (Except HErr Resp) × DB :=
  match oid id with
  | .error e => (.error (.http e), db)
  | .ok i =>
      if up then
        let r := update_one db.events i event.model_dump
        if r.1 = 0 then (.error (.http ⟨404, "Event not found"⟩), { db with events := r.2 })
        else (.ok (.msg "Event updated"), { db with events := r.2 })
      else (.error .storeDown, db)

/-- Model of `DELETE /events/{id}` (`delete_event`). -/
def delete_event (up : Bool) (id : String) (db : DB) : (Except HErr Resp) × DB :=
  match oid id with
  | .error e => (.error (.http e), db)
  | .ok i =>
      if up then
        let r := delete_one db.events i
        if r.1 = 0 then (.error (.http ⟨404, "Event not found"⟩), { db with events := r.2 })
        else (.ok (.msg "Event deleted"), { db with events := r.2 })
      else (.error .storeDown, db)

/-- Model of `POST /attendees` (`create_attendee`). -/
def create_attendee (up : Bool) (attendee : Attendee) (db : DB) : (Except HErr Resp) × DB :=
  if up then
    let newId := genId db.nextId
    (.ok (.created "Attendee created" newId),
     { db with attendees := db.attendees ++ [("_id", Value.oid newId) :: attendee.model_dump],
               nextId := db.nextId + 1 })
  else (.error .storeDown, db)

/-- Model of `GET /attendees` (`list_attendees`). -/
def list_attendees (up : Bool) (db : DB) : Except HErr Resp :=
  if up then .ok (.docs ((db.attendees.take 100).map fix_id)) else .error .storeDown

/-- Model of `GET /attendees/{id}` (`get_attendee`). -/
def get_attendee (up : Bool) (id : String) (db : DB) : Except HErr Resp :=
  match oid id with
  | .error e => .error (.http e)
  | .ok i =>
      if up then
        match find_one db.attendees i with
        | none => .error (.http ⟨404, "Attendee not found"⟩)
        | some doc => .ok (.doc (fix_id doc))
      else .error .storeDown

/-- Model of `PUT /attendees/{id}` (`update_attendee`). -/
def update_attendee (up : Bool) (id : String) (attendee : Attendee) (db : DB) :
    (Except HErr Resp) × DB :=
  match oid id with
  | .error e => (.error (.http e), db)
  | .ok i =>
      if up then
        let r := update_one db.attendees i attendee.model_dump
        if r.1 = 0 then (.error (.http ⟨404, "Attendee not found"⟩), { db with attendees := r.2 })
        else (.ok (.msg "Attendee updated"), { db with attendees := r.2 })
      else (.error .storeDown, db)

/-- Model of `DELETE /attendees/{id}` (`delete_attendee`). -/
def delete_attendee (up : Bool) (id : String) (db : DB) : (Except HErr Resp) × DB :=
  match oid id with
  | .error e => (.error (.http e), db)
  | .ok i =>
      if up then
        let r := delete_one db.attendees i
        if r.1 = 0 then (.error (.http ⟨404, "Attendee not found"⟩), { db with attendees := r.2 })
        else (.ok (.msg "Attendee deleted"), { db with attendees := r.2 })
      else (.error .storeDown, db)

/-- Model of `POST /venues` (`create_venue`). -/
def create_venue (up : Bool) (venue : Venue) (db : DB) : (Except HErr Resp) × DB :=
  if up then
    let newId := genId db.nextId
    (.ok (.created "Venue created" newId),
     { db with venues := db.venues ++ [("_id", Value.oid newId) :: venue.model_dump],
               nextId := db.nextId + 1 })
  else (.error .storeDown, db)

/-- Model of `GET /venues` (`list_venues`). -/
def list_venues (up : Bool) (db : DB) : Except HErr Resp :=
  if up then .ok (.docs ((db.venues.take 100).map fix_id)) else .error .storeDown

/-- Model of `GET /venues/{id}` (`get_venue`). -/
def get_venue (up : Bool) (id : String) (db : DB) : Except HErr Resp :=
  match oid id with
  | .error e => .error (.http e)
  | .ok i =>
      if up then
        match find_one db.venues i with
        | none => .error (.http ⟨404, "Venue not found"⟩)
        | some doc => .ok (.doc (fix_id doc))
      else .error .storeDown

/-- Model of `PUT /venues/{id}` (`update_venue`). -/
def update_venue (up : Bool) (id : String) (venue : Venue) (db : DB) :
    (Except HErr Resp) × DB :=
  match oid id with
  | .error e => (.error (.http e), db)
  | .ok i =>
      if up then
        let r := update_one db.venues i venue.model_dump
        if r.1 = 0 then (.error (.http ⟨404, "Venue not found"⟩), { db with venues := r.2 })
        else (.ok (.msg "Venue updated"), { db with venues := r.2 })
      else (.error .storeDown, db)

/-- Model of `DELETE /venues/{id}` (`delete_venue`). -/
def delete_venue (up : Bool) (id : String) (db : DB) : (Except HErr Resp) × DB :=
  match oid id with
  | .error e => (.error (.http e), db)
  | .ok i =>
      if up then
        let r := delete_one db.venues i
        if r.1 = 0 then (.error (.http ⟨404, "Venue not found"⟩), { db with venues := r.2 })
        else (.ok (.msg "Venue deleted"), { db with venues := r.2 })
      else (.error .storeDown, db)

/-- Model of `POST /bookings` (`create_booking`). -/
def create_booking (up : Bool) (booking : Booking) (db : DB) : (Except HErr Resp) × DB :=
  if up then
    let newId := genId db.nextId
    (.ok (.created "Booking created" newId),
     { db with bookings := db.bookings ++ [("_id", Value.oid newId) :: booking.model_dump],
               nextId := db.nextId + 1 })
  else (.error .storeDown, db)

/-- Model of `GET /bookings` (`list_bookings`). -/
def list_bookings (up : Bool) (db : DB) : Except HErr Resp :=
  if up then .ok (.docs ((db.bookings.take 100).map fix_id)) else .error .storeDown

/-- Model of `GET /bookings/{id}` (`get_booking`). -/
def get_booking (up : Bool) (id : String) (db : DB) : Except HErr Resp :=
  match oid id with
  | .error e => .error (.http e)
  | .ok i =>
      if up then
        match find_one db.bookings i with
        | none => .error (.http ⟨404, "Booking not found"⟩)
        | some doc => .ok (.doc (fix_id doc))
      else .error .storeDown

/-- Model of `PUT /bookings/{id}` (`update_booking`). -/
def update_booking (up : Bool) (id : String) (booking : Booking) (db : DB) :
    (Except HErr Resp) × DB :=
  match oid id with
  | .error e => (.error (.http e), db)
  | .ok i =>
      if up then
        let r := update_one db.bookings i booking.model_dump
        if r.1 = 0 then (.error (.http ⟨404, "Booking not found"⟩), { db with bookings := r.2 })
        else (.ok (.msg "Booking updated"), { db with bookings := r.2 })
      else (.error .storeDown, db)

/-- Model of `DELETE /bookings/{id}` (`delete_booking`). -/
def delete_booking (up : Bool) (id : String) (db : DB) : (Except HErr Resp) × DB :=
  match oid id with
  | .error e => (.error (.http e), db)
  | .ok i =>
      if up then
        let r := delete_one db.bookings i
        if r.1 = 0 then (.error (.http ⟨404, "Booking not found"⟩), { db with bookings := r.2 })
        else (.ok (.msg "Booking deleted"), { db with bookings := r.2 })
      else (.error .storeDown, db)

/-- Documents of an asset collection whose owner-id field equals the
given value, in natural order: the filter of `find_one({key: v}, ...)`. -/
def matchingAssets : List Doc → String → Value → List Doc
  | [], _, _ => []
  | d :: ds, k, v =>
      if getField d k = some v then d :: matchingAssets ds k v else matchingAssets ds k v

/-- Upload timestamp of an asset record. -/
def tsOf (d : Doc) : Nat :=
  match getField d "uploaded_at" with
  | some (.time t) => t
  | _ => 0

/-- Keep the record with the strictly larger timestamp (first one wins a
tie), modelling `sort=[("uploaded_at", -1)]` deterministically. -/
def pickLatest (best : Option Doc) (d : Doc) : Option Doc :=
  match best with
  | none => some d
  | some b => if tsOf b < tsOf d then some d else some b

/-- Model of `find_one({key: v}, sort=[("uploaded_at", -1)])`: among
the matching records, the one with the maximum upload timestamp. -/
def find_latest (coll : List Doc) (k : String) (v : Value) : Option Doc :=
  (matchingAssets coll k v).foldl pickLatest none

/-- Content bytes stored in an asset record (`doc["content"]`). -/
def bytesAt (d : Doc) (k : String) : List Nat :=
  match getField d k with
  | some (.bytes b) => b
  | _ => []

/-- String field of an asset record (`doc["content_type"]` etc.). -/
def strAt (d : Doc) (k : String) : String :=
  match getField d k with
  | some (.str s) => s
  | _ => ""

/-- The asset record document built by each upload handler, as Mongo
returns it (store-generated `_id` first). -/
def assetDoc (newId : String) (key owner : String) (file : UploadFile) (now : Nat) : Doc :=
  [("_id", .oid newId), (key, .str owner),
   ("filename", .str file.filename), ("content_type", .str file.content_type),
   ("content", .bytes file.content), ("uploaded_at", .time now)]

/-- Model of `POST /upload_event_poster/{event_id}`: always inserts a
new record keyed by the raw `event_id` path string — no id validation. -/
def upload_event_poster (up : Bool) (event_id : String) (file : UploadFile) (now : Nat)
    (db : DB) : (Except HErr Resp) × DB :=
  if up then
    let newId := genId db.nextId
    (.ok (.created "Event poster uploaded" newId),
     { db with event_posters := db.event_posters ++ [assetDoc newId "event_id" event_id file now],
               nextId := db.nextId + 1 })
  else (.error .storeDown, db)

/-- Model of `GET /event_poster/{event_id}`: most recent poster or 404. -/
def get_event_poster (up : Bool) (event_id : String) (db : DB) : Except HErr Resp :=
  if up then
    match find_latest db.event_posters "event_id" (.str event_id) with
    | none => .error (.http ⟨404, "Poster not found"⟩)
    | some doc => .ok (.file (bytesAt doc "content") (strAt doc "content_type"))
  else .error .storeDown

/-- Model of `POST /upload_promo_video/{event_id}`. -/
def upload_promo_video (up : Bool) (event_id : String) (file : UploadFile) (now : Nat)
    (db : DB) : (Except HErr Resp) × DB :=
  if up then
    let newId := genId db.nextId
    (.ok (.created "Promo video uploaded" newId),
     { db with promo_videos := db.promo_videos ++ [assetDoc newId "event_id" event_id file now],
               nextId := db.nextId + 1 })
  else (.error .storeDown, db)

/-- Model of `GET /promo_video/{event_id}`. -/
def get_promo_video (up : Bool) (event_id : String) (db : DB) : Except HErr Resp :=
  if up then
    match find_latest db.promo_videos "event_id" (.str event_id) with
    | none => .error (.http ⟨404, "Promo video not found"⟩)
    | some doc => .ok (.file (bytesAt doc "content") (strAt doc "content_type"))
  else .error .storeDown

/-- Model of `POST /upload_venue_photo/{venue_id}`. -/
def upload_venue_photo (up : Bool) (venue_id : String) (file : UploadFile) (now : Nat)
    (db : DB) : (Except HErr Resp) × DB :=
  if up then
    let newId := genId db.nextId
    (.ok (.created "Venue photo uploaded" newId),
     { db with venue_photos := db.venue_photos ++ [assetDoc newId "venue_id" venue_id file now],
               nextId := db.nextId + 1 })
  else (.error .storeDown, db)

/-- Model of `GET /venue_photo/{venue_id}`. -/
def get_venue_photo (up : Bool) (venue_id : String) (db : DB) : Except HErr Resp :=
  if up then
    match find_latest db.venue_photos "venue_id" (.str venue_id) with
    | none => .error (.http ⟨404, "Venue photo not found"⟩)
    | some doc => .ok (.file (bytesAt doc "content") (strAt doc "content_type"))
  else .error .storeDown

/-- A request to the service: one constructor per route. -/
inductive Request where
  | root : Request
  | createEvent : Event → Request
  | listEvents : Request
  | getEvent : String → Request
  | updateEvent : String → Event → Request
  | deleteEvent : String → Request
  | createAttendee : Attendee → Request
  | listAttendees : Request
  | getAttendee : String → Request
  | updateAttendee : String → Attendee → Request
  | deleteAttendee : String → Request
  | createVenue : Venue → Request
  | listVenues : Request
  | getVenue : String → Request
  | updateVenue : String → Venue → Request
  | deleteVenue : String → Request
  | createBooking : Booking → Request
  | listBookings : Request
  | getBooking : String → Request
  | updateBooking : String → Booking → Request
  | deleteBooking : String → Request
  | uploadEventPoster : String → UploadFile → Request
  | getEventPoster : String → Request
  | uploadPromoVideo : String → UploadFile → Request
  | getPromoVideo : String → Request
  | uploadVenuePhoto : String → UploadFile → Request
  | getVenuePhoto : String → Request
deriving DecidableEq

/-- Route a request to its handler (read-only handlers leave the store
unchanged by construction). -/
def handle (up : Bool) (req : Request) (now : Nat) (db : DB) : (Except HErr Resp) × DB :=
  match req with
  | .root => (.ok root, db)
  | .createEvent e => create_event up e db
  | .listEvents => (list_events up db, db)
  | .getEvent id => (get_event up id db, db)
  | .updateEvent id e => update_event up id e db
  | .deleteEvent id => delete_event up id db
  | .createAttendee a => create_attendee up a db
  | .listAttendees => (list_attendees up db, db)
  | .getAttendee id => (get_attendee up id db, db)
  | .updateAttendee id a => update_attendee up id a db
  | .deleteAttendee id => delete_attendee up id db
  | .createVenue v => create_venue up v db
  | .listVenues => (list_venues up db, db)
  | .getVenue id => (get_venue up id db, db)
  | .updateVenue id v => update_venue up id v db
  | .deleteVenue id => delete_venue up id db
  | .createBooking b => create_booking up b db
  | .listBookings => (list_bookings up db, db)
  | .getBooking id => (get_booking up id db, db)
  | .updateBooking id b => update_booking up id b db
  | .deleteBooking id => delete_booking up id db
  | .uploadEventPoster id f => upload_event_poster up id f now db
  | .getEventPoster id => (get_event_poster up id db, db)
  | .uploadPromoVideo id f => upload_promo_video up id f now db
  | .getPromoVideo id => (get_promo_video up id db, db)
  | .uploadVenuePhoto id f => upload_venue_photo up id f now db
  | .getVenuePhoto id => (get_venue_photo up id db, db)

/-- The application boundary: run the handler and translate the Mongo
driver's unavailability exception into the registered handler's fixed
503 response, so no stack detail reaches the caller. -/
def app_dispatch (up : Bool) (req : Request) (now : Nat) (db : DB) :
    (Except Err Resp) × DB :=
  match handle up req now db with
  | (.ok r, db1) => (.ok r, db1)
  | (.error (.http e), db1) => (.error e, db1)
  | (.error .storeDown, db1) => (.error mongo_unavailable_handler, db1)

/-- Python truthiness-based `a or b` on `os.getenv` results: `None` and
the empty string fall through to the right operand. -/
def orFalsy (a b : Option String) : Option String :=
  match a with
  | some s => if s = "" then b else some s
  | none => b

/-- The environment variable names recognised for the connection
string, in the order the source consults them. -/
def mongoEnvNames : List String :=
  ["MONGO_URI", "MONGO_URL", "MONGODB_URI", "MONGODB_URL", "mango_Url"]

/-- Model of the module-level `mongo_uri` expression: the chain of
`os.getenv(...) or ...` over the recognised names. -/
def mongo_uri (env : String → Option String) : Option String :=
  orFalsy (env "MONGO_URI") (orFalsy (env "MONGO_URL") (orFalsy (env "MONGODB_URI")
    (orFalsy (env "MONGODB_URL") (env "mango_Url"))))

/-- The startup failure message (`RuntimeError`). -/
def missingUriMsg : String :=
  "Mongo connection string missing. Set MONGO_URI (recommended) or MONGODB_URL in your .env file."

/-- Model of module import: compute `mongo_uri` and fail fast
(`raise RuntimeError`) when it is falsy (`None` or empty). -/
def startup (env : String → Option String) : Except String String :=
  match mongo_uri env with
  | none => .error missingUriMsg
  | some s => if s = "" then .error missingUriMsg else .ok s

/-- Spec-side description of the configuration rule: the value of the
first recognised environment variable that is set to a non-empty
string. Written from the spec's words, to be compared with the
source-side `mongo_uri`/`startup`. -/
def firstNonEmptyEnv (env : String → Option String) : List String → Option String
  | [] => none
  | n :: ns =>
      match env n with
      | some s => if s = "" then firstNonEmptyEnv env ns else some s
      | none => firstNonEmptyEnv env ns

/-- Whether a document carries an `_id` field (true of every document
the store returns). -/
def hasId (d : Doc) : Bool :=
  (getField d "_id").isSome

/-- Whether a document's `_id` field is present and holds a string —
the client-visible shape produced by `fix_id`. -/
def idIsStr (d : Doc) : Bool :=
  match getField d "_id" with
  | some (.str _) => true
  | _ => false

theorem getField_setField_self (d : Doc) (k : String) (v : Value) :
    getField (setField d k v) k = some v := by
  induction d with
  | nil => simp [setField, getField]
  | cons p ps ih =>
    by_cases h : p.1 = k
    · simp [setField, h, getField]
    · simp [setField, h, getField, ih]

theorem getField_setField_ne (d : Doc) (k k' : String) (v : Value) (h : k' ≠ k) :
    getField (setField d k v) k' = getField d k' := by
  induction d with
  | nil => simp [setField, getField, Ne.symm h]
  | cons p ps ih =>
    by_cases hp : p.1 = k
    · simp [setField, hp, getField, Ne.symm h, hp ▸ Ne.symm h]
    · simp [setField, hp, getField, ih]

theorem setFields_cons (d : Doc) (p : String × Value) (ps : Doc) :
    setFields d (p :: ps) = setFields (setField d p.1 p.2) ps := rfl

theorem getField_setFields_not_mem (upd : Doc) (d : Doc) (k : String)
    (h : ∀ p ∈ upd, p.1 ≠ k) :
    getField (setFields d upd) k = getField d k := by
  induction upd generalizing d with
  | nil => rfl
  | cons p ps ih =>
    rw [setFields_cons, ih _ (fun q hq => h q (List.mem_cons_of_mem p hq)),
      getField_setField_ne _ _ _ _ (Ne.symm (h p (List.mem_cons_self p ps)))]

theorem find_one_eq_none (l : List Doc) (i : String)
    (h : ∀ d ∈ l, getField d "_id" ≠ some (.oid i)) :
    find_one l i = none := by
  induction l with
  | nil => rfl
  | cons d ds ih =>
    simp [find_one, h d (List.mem_cons_self d ds),
      ih (fun d' hd' => h d' (List.mem_cons_of_mem d hd'))]

theorem find_one_append_no_match (l1 l2 : List Doc) (i : String)
    (h : ∀ d ∈ l1, getField d "_id" ≠ some (.oid i)) :
    find_one (l1 ++ l2) i = find_one l2 i := by
  induction l1 with
  | nil => rfl
  | cons d ds ih =>
    simp [find_one, h d (List.mem_cons_self d ds),
      ih (fun d' hd' => h d' (List.mem_cons_of_mem d hd'))]

theorem find_one_sound (l : List Doc) (i : String) (d : Doc)
    (h : find_one l i = some d) :
    d ∈ l ∧ getField d "_id" = some (.oid i) := by
  induction l with
  | nil => cases h
  | cons x xs ih =>
    by_cases hx : getField x "_id" = some (.oid i)
    · simp [find_one, hx] at h
      exact ⟨h ▸ List.mem_cons_self x xs, h ▸ hx⟩
    · simp [find_one, hx] at h
      rcases ih h with ⟨hmem, hid⟩
      exact ⟨List.mem_cons_of_mem x hmem, hid⟩

theorem update_one_no_match (l : List Doc) (i : String) (upd : Doc)
    (h : ∀ d ∈ l, getField d "_id" ≠ some (.oid i)) :
    update_one l i upd = (0, l) := by
  induction l with
  | nil => rfl
  | cons d ds ih =>
    simp [update_one, h d (List.mem_cons_self d ds),
      ih (fun d' hd' => h d' (List.mem_cons_of_mem d hd'))]

theorem update_one_split (pre : List Doc) (d : Doc) (post : List Doc) (i : String)
    (upd : Doc)
    (hpre : ∀ d' ∈ pre, getField d' "_id" ≠ some (.oid i))
    (hd : getField d "_id" = some (.oid i)) :
    update_one (pre ++ d :: post) i upd = (1, pre ++ setFields d upd :: post) := by
  induction pre with
  | nil => simp [update_one, hd]
  | cons x xs ih =>
    simp [update_one, hpre x (List.mem_cons_self x xs),
      ih (fun d' hd' => hpre d' (List.mem_cons_of_mem x hd'))]

theorem delete_one_no_match (l : List Doc) (i : String)
    (h : ∀ d ∈ l, getField d "_id" ≠ some (.oid i)) :
    delete_one l i = (0, l) := by
  induction l with
  | nil => rfl
  | cons d ds ih =>
    simp [delete_one, h d (List.mem_cons_self d ds),
      ih (fun d' hd' => h d' (List.mem_cons_of_mem d hd'))]

theorem delete_one_split (pre : List Doc) (d : Doc) (post : List Doc) (i : String)
    (hpre : ∀ d' ∈ pre, getField d' "_id" ≠ some (.oid i))
    (hd : getField d "_id" = some (.oid i)) :
    delete_one (pre ++ d :: post) i = (1, pre ++ post) := by
  induction pre with
  | nil => simp [delete_one, hd]
  | cons x xs ih =>
    simp [delete_one, hpre x (List.mem_cons_self x xs),
      ih (fun d' hd' => hpre d' (List.mem_cons_of_mem x hd'))]

theorem mem_of_mem_matchingAssets (l : List Doc) (k : String) (v : Value) (d : Doc)
    (h : d ∈ matchingAssets l k v) : d ∈ l := by
  induction l with
  | nil => cases h
  | cons x xs ih =>
    by_cases hx : getField x k = some v
    · simp [matchingAssets, hx] at h
      rcases h with h | h
      · exact h ▸ List.mem_cons_self x xs
      · exact List.mem_cons_of_mem x (ih h)
    · simp [matchingAssets, hx] at h
      exact List.mem_cons_of_mem x (ih h)

theorem matchingAssets_append (l1 l2 : List Doc) (k : String) (v : Value) :
    matchingAssets (l1 ++ l2) k v = matchingAssets l1 k v ++ matchingAssets l2 k v := by
  induction l1 with
  | nil => rfl
  | cons x xs ih =>
    by_cases hx : getField x k = some v <;> simp [matchingAssets, hx, ih]

theorem foldl_pickLatest_some (l : List Doc) (b : Doc) :
    ∃ d, l.foldl pickLatest (some b) = some d := by
  induction l generalizing b with
  | nil => exact ⟨b, rfl⟩
  | cons x xs ih =>
    simp only [List.foldl_cons, pickLatest]
    by_cases hx : tsOf b < tsOf x <;> simp [hx, ih]

theorem foldl_pickLatest_spec (l : List Doc) (acc : Option Doc) (d : Doc)
    (h : l.foldl pickLatest acc = some d) :
    (acc = some d ∨ d ∈ l) ∧ (∀ d' ∈ l, tsOf d' ≤ tsOf d) ∧
      (∀ b, acc = some b → tsOf b ≤ tsOf d) := by
  induction l generalizing acc with
  | nil =>
    refine ⟨Or.inl h, by simp, ?_⟩
    intro b hb
    rw [hb] at h
    cases h
    exact Nat.le_refl _
  | cons x xs ih =>
    rw [List.foldl_cons] at h
    rcases ih (pickLatest acc x) h with ⟨hmem, hmax, hacc⟩
    have hx : tsOf x ≤ tsOf d := by
      cases acc with
      | none => exact hacc x rfl
      | some b =>
        by_cases hb : tsOf b < tsOf x
        · exact hacc x (by simp [pickLatest, hb])
        · exact Nat.le_trans (Nat.le_of_not_lt hb) (hacc b (by simp [pickLatest, hb]))
    refine ⟨?_, ?_, ?_⟩
    · rcases hmem with hm | hm
      · cases acc with
        | none =>
          simp [pickLatest] at hm
          exact Or.inr (hm ▸ List.mem_cons_self x xs)
        | some b =>
          by_cases hb : tsOf b < tsOf x
          · simp [pickLatest, hb] at hm
            exact Or.inr (hm ▸ List.mem_cons_self x xs)
          · simp [pickLatest, hb] at hm
            exact Or.inl (by rw [hm])
      · exact Or.inr (List.mem_cons_of_mem x hm)
    · intro d' hd'
      rcases List.mem_cons.mp hd' with rfl | hd'
      · exact hx
      · exact hmax d' hd'
    · intro b hb
      cases hb
      by_cases hbx : tsOf b < tsOf x
      · exact Nat.le_trans (Nat.le_of_lt hbx) hx
      · exact hacc b (by simp [pickLatest, hbx])

theorem find_latest_eq_none_iff (coll : List Doc) (k : String) (v : Value) :
    find_latest coll k v = none ↔ matchingAssets coll k v = [] := by
  unfold find_latest
  cases hm : matchingAssets coll k v with
  | nil => simp
  | cons x xs =>
    simp only [List.foldl_cons]
    have : pickLatest none x = some x := rfl
    rw [this]
    rcases foldl_pickLatest_some xs x with ⟨d, hd⟩
    simp [hd]

theorem find_latest_spec (coll : List Doc) (k : String) (v : Value) (d : Doc)
    (h : find_latest coll k v = some d) :
    d ∈ matchingAssets coll k v ∧ ∀ d' ∈ matchingAssets coll k v, tsOf d' ≤ tsOf d := by
  unfold find_latest at h
  rcases foldl_pickLatest_spec _ _ _ h with ⟨hmem, hmax, _⟩
  rcases hmem with hm | hm
  · cases hm
  · exact ⟨hm, hmax⟩

theorem fix_id_getField_of_getField (d : Doc) (v : Value)
    (h : getField d "_id" = some v) :
    getField (fix_id d) "_id" = some (.str (valueStr v)) := by
  simp [fix_id, h, getField_setField_self]

theorem fix_id_getField_ne (d : Doc) (k : String) (h : k ≠ "_id") :
    getField (fix_id d) k = getField d k := by
  unfold fix_id
  cases hg : getField d "_id" with
  | none => rfl
  | some v => exact getField_setField_ne _ _ _ _ h

/-- C1: for every entity type (event, attendee, venue, booking) and
every valid payload, creating the entity and then getting it by the
returned id string yields a document equal to the input payload's
fields plus an `_id` field holding the generated id as a string. The
freshness hypothesis captures the store's guarantee that a generated
ObjectId collides with no stored document. -/
theorem create_then_get_roundtrip :
    (∀ (e : Event) (db : DB), e.Valid →
      (∀ d ∈ db.events, getField d "_id" ≠ some (.oid (genId db.nextId))) →
      (create_event true e db).1 = .ok (.created "Event created" (genId db.nextId)) ∧
      get_event true (genId db.nextId) (create_event true e db).2 =
        .ok (.doc (("_id", .str (genId db.nextId)) :: e.model_dump))) ∧
    (∀ (a : Attendee) (db : DB), a.Valid →
      (∀ d ∈ db.attendees, getField d "_id" ≠ some (.oid (genId db.nextId))) →
      (create_attendee true a db).1 = .ok (.created "Attendee created" (genId db.nextId)) ∧
      get_attendee true (genId db.nextId) (create_attendee true a db).2 =
        .ok (.doc (("_id", .str (genId db.nextId)) :: a.model_dump))) ∧
    (∀ (v : Venue) (db : DB), v.Valid →
      (∀ d ∈ db.venues, getField d "_id" ≠ some (.oid (genId db.nextId))) →
      (create_venue true v db).1 = .ok (.created "Venue created" (genId db.nextId)) ∧
      get_venue true (genId db.nextId) (create_venue true v db).2 =
        .ok (.doc (("_id", .str (genId db.nextId)) :: v.model_dump))) ∧
    (∀ (b : Booking) (db : DB), b.Valid →
      (∀ d ∈ db.bookings, getField d "_id" ≠ some (.oid (genId db.nextId))) →
      (create_booking true b db).1 = .ok (.created "Booking created" (genId db.nextId)) ∧
      get_booking true (genId db.nextId) (create_booking true b db).2 =
        .ok (.doc (("_id", .str (genId db.nextId)) :: b.model_dump))) := by
  refine ⟨?_, ?_, ?_, ?_⟩ <;>
  · intro x db _hval hfresh
    refine ⟨by simp [create_event, create_attendee, create_venue, create_booking], ?_⟩
    simp only [create_event, create_attendee, create_venue, create_booking, if_true,
      get_event, get_attendee, get_venue, get_booking, oid_genId]
    rw [find_one_append_no_match _ _ _ hfresh]
    simp [find_one, getField, fix_id, setField, valueStr]

/-- Witness for C1: a concrete event created in the empty store and
read back by the returned id. -/
theorem create_then_get_roundtrip_witness :
    (create_event true ⟨"Concert", "Live show", "2026-01-01", "v1", 100⟩ {}).1 =
      .ok (.created "Event created" (genId 0)) ∧
    get_event true (genId 0)
        (create_event true ⟨"Concert", "Live show", "2026-01-01", "v1", 100⟩ {}).2 =
      .ok (.doc (("_id", .str (genId 0)) ::
        Event.model_dump ⟨"Concert", "Live show", "2026-01-01", "v1", 100⟩)) :=
  create_then_get_roundtrip.1 ⟨"Concert", "Live show", "2026-01-01", "v1", 100⟩ {}
    (by refine ⟨?_, ?_, ?_, ?_, ?_⟩ <;> decide)
    (fun d hd => absurd hd (List.not_mem_nil d))

/-- C2: for every string failing the 24-hex ObjectId syntax, get,
update and delete on each of the four collections answer 400 "Invalid
id format", and — since the conclusion holds for both values of `up`,
in particular with the store unreachable — the error is raised before
any store operation, leaving the store unchanged. -/
theorem invalid_id_rejected_before_store (id : String) (h : is_valid id = false)
    (up : Bool) (db : DB) (e : Event) (a : Attendee) (v : Venue) (b : Booking) :
    get_event up id db = .error (.http ⟨400, "Invalid id format"⟩) ∧
    update_event up id e db = (.error (.http ⟨400, "Invalid id format"⟩), db) ∧
    delete_event up id db = (.error (.http ⟨400, "Invalid id format"⟩), db) ∧
    get_attendee up id db = .error (.http ⟨400, "Invalid id format"⟩) ∧
    update_attendee up id a db = (.error (.http ⟨400, "Invalid id format"⟩), db) ∧
    delete_attendee up id db = (.error (.http ⟨400, "Invalid id format"⟩), db) ∧
    get_venue up id db = .error (.http ⟨400, "Invalid id format"⟩) ∧
    update_venue up id v db = (.error (.http ⟨400, "Invalid id format"⟩), db) ∧
    delete_venue up id db = (.error (.http ⟨400, "Invalid id format"⟩), db) ∧
    get_booking up id db = .error (.http ⟨400, "Invalid id format"⟩) ∧
    update_booking up id b db = (.error (.http ⟨400, "Invalid id format"⟩), db) ∧
    delete_booking up id db = (.error (.http ⟨400, "Invalid id format"⟩), db) := by
  have ho : oid id = .error ⟨400, "Invalid id format"⟩ := by simp [oid, h]
  refine ⟨?_, ?_, ?_, ?_, ?_, ?_, ?_, ?_, ?_, ?_, ?_, ?_⟩ <;>
    simp [get_event, update_event, delete_event, get_attendee, update_attendee,
      delete_attendee, get_venue, update_venue, delete_venue, get_booking,
      update_booking, delete_booking, ho]

/-- Witness for C2: the malformed id "not-an-id" is rejected with 400
by the event get endpoint even with the store down. -/
theorem invalid_id_rejected_before_store_witness :
    is_valid "not-an-id" = false ∧
    get_event false "not-an-id" {} = .error (.http ⟨400, "Invalid id format"⟩) :=
  ⟨by decide,
    (invalid_id_rejected_before_store "not-an-id" (by decide) false {}
      ⟨"n", "d", "dt", "v", 1⟩ ⟨"n", "e@x.io", none⟩ ⟨"n", "addr", 1⟩
      ⟨"e", "a", "vip", 1⟩).1⟩

/-- C5: for every well-formed (24-hex) id that matches no stored
document in the target collection, get, update and delete on each of
the four entity types answer 404 not-found, and update/delete leave
the store state unchanged. -/
theorem wellformed_missing_id_404 (id : String) (db : DB)
    (hv : is_valid id = true)
    (hev : ∀ d ∈ db.events, getField d "_id" ≠ some (.oid (normOid id)))
    (hat : ∀ d ∈ db.attendees, getField d "_id" ≠ some (.oid (normOid id)))
    (hve : ∀ d ∈ db.venues, getField d "_id" ≠ some (.oid (normOid id)))
    (hbo : ∀ d ∈ db.bookings, getField d "_id" ≠ some (.oid (normOid id)))
    (e : Event) (a : Attendee) (v : Venue) (b : Booking) :
    get_event true id db = .error (.http ⟨404, "Event not found"⟩) ∧
    update_event true id e db = (.error (.http ⟨404, "Event not found"⟩), db) ∧
    delete_event true id db = (.error (.http ⟨404, "Event not found"⟩), db) ∧
    get_attendee true id db = .error (.http ⟨404, "Attendee not found"⟩) ∧
    update_attendee true id a db = (.error (.http ⟨404, "Attendee not found"⟩), db) ∧
    delete_attendee true id db = (.error (.http ⟨404, "Attendee not found"⟩), db) ∧
    get_venue true id db = .error (.http ⟨404, "Venue not found"⟩) ∧
    update_venue true id v db = (.error (.http ⟨404, "Venue not found"⟩), db) ∧
    delete_venue true id db = (.error (.http ⟨404, "Venue not found"⟩), db) ∧
    get_booking true id db = .error (.http ⟨404, "Booking not found"⟩) ∧
    update_booking true id b db = (.error (.http ⟨404, "Booking not found"⟩), db) ∧
    delete_booking true id db = (.error (.http ⟨404, "Booking not found"⟩), db) := by
  have ho : oid id = .ok (normOid id) := by simp [oid, hv]
  refine ⟨?_, ?_, ?_, ?_, ?_, ?_, ?_, ?_, ?_, ?_, ?_, ?_⟩ <;>
    simp [get_event, update_event, delete_event, get_attendee, update_attendee,
      delete_attendee, get_venue, update_venue, delete_venue, get_booking,
      update_booking, delete_booking, ho,
      find_one_eq_none _ _ hev, update_one_no_match _ _ _ hev, delete_one_no_match _ _ hev,
      find_one_eq_none _ _ hat, update_one_no_match _ _ _ hat, delete_one_no_match _ _ hat,
      find_one_eq_none _ _ hve, update_one_no_match _ _ _ hve, delete_one_no_match _ _ hve,
      find_one_eq_none _ _ hbo, update_one_no_match _ _ _ hbo, delete_one_no_match _ _ hbo]

/-- Witness for C5: a well-formed id on the empty store yields 404. -/
theorem wellformed_missing_id_404_witness :
    is_valid "0123456789abcdef01234567" = true ∧
    get_event true "0123456789abcdef01234567" {} = .error (.http ⟨404, "Event not found"⟩) :=
  ⟨by decide,
    (wellformed_missing_id_404 "0123456789abcdef01234567" {} (by decide)
      (fun d hd => absurd hd (List.not_mem_nil d))
      (fun d hd => absurd hd (List.not_mem_nil d))
      (fun d hd => absurd hd (List.not_mem_nil d))
      (fun d hd => absurd hd (List.not_mem_nil d))
      ⟨"n", "d", "dt", "v", 1⟩ ⟨"n", "e@x.io", none⟩ ⟨"n", "addr", 1⟩
      ⟨"e", "a", "vip", 1⟩).1⟩

/-- C4: update with a well-formed id of an existing document replaces
exactly the schema's declared fields in the matched document, keeps
every field outside the update document unchanged, modifies no other
document and no other collection. -/
theorem update_replaces_exactly_schema_fields :
    (∀ (d : Doc) (upd : Doc) (k : String), (∀ p ∈ upd, p.1 ≠ k) →
      getField (setFields d upd) k = getField d k) ∧
    (∀ (d : Doc) (e : Event),
      getField (setFields d e.model_dump) "name" = some (.str e.name) ∧
      getField (setFields d e.model_dump) "description" = some (.str e.description) ∧
      getField (setFields d e.model_dump) "date" = some (.str e.date) ∧
      getField (setFields d e.model_dump) "venue_id" = some (.str e.venue_id) ∧
      getField (setFields d e.model_dump) "max_attendees" = some (.int e.max_attendees)) ∧
    (∀ (d : Doc) (a : Attendee),
      getField (setFields d a.model_dump) "name" = some (.str a.name) ∧
      getField (setFields d a.model_dump) "email" = some (.str a.email) ∧
      getField (setFields d a.model_dump) "phone" =
        some (match a.phone with | some p => .str p | none => .null)) ∧
    (∀ (d : Doc) (v : Venue),
      getField (setFields d v.model_dump) "name" = some (.str v.name) ∧
      getField (setFields d v.model_dump) "address" = some (.str v.address) ∧
      getField (setFields d v.model_dump) "capacity" = some (.int v.capacity)) ∧
    (∀ (d : Doc) (b : Booking),
      getField (setFields d b.model_dump) "event_id" = some (.str b.event_id) ∧
      getField (setFields d b.model_dump) "attendee_id" = some (.str b.attendee_id) ∧
      getField (setFields d b.model_dump) "ticket_type" = some (.str b.ticket_type) ∧
      getField (setFields d b.model_dump) "quantity" = some (.int b.quantity)) ∧
    (∀ (id : String) (e : Event) (db : DB) (pre post : List Doc) (dd : Doc),
      is_valid id = true →
      db.events = pre ++ dd :: post →
      (∀ d' ∈ pre, getField d' "_id" ≠ some (.oid (normOid id))) →
      getField dd "_id" = some (.oid (normOid id)) →
      update_event true id e db =
        (.ok (.msg "Event updated"),
         { db with events := pre ++ setFields dd e.model_dump :: post })) ∧
    (∀ (id : String) (a : Attendee) (db : DB) (pre post : List Doc) (dd : Doc),
      is_valid id = true →
      db.attendees = pre ++ dd :: post →
      (∀ d' ∈ pre, getField d' "_id" ≠ some (.oid (normOid id))) →
      getField dd "_id" = some (.oid (normOid id)) →
      update_attendee true id a db =
        (.ok (.msg "Attendee updated"),
         { db with attendees := pre ++ setFields dd a.model_dump :: post })) ∧
    (∀ (id : String) (v : Venue) (db : DB) (pre post : List Doc) (dd : Doc),
      is_valid id = true →
      db.venues = pre ++ dd :: post →
      (∀ d' ∈ pre, getField d' "_id" ≠ some (.oid (normOid id))) →
      getField dd "_id" = some (.oid (normOid id)) →
      update_venue true id v db =
        (.ok (.msg "Venue updated"),
         { db with venues := pre ++ setFields dd v.model_dump :: post })) ∧
    (∀ (id : String) (b : Booking) (db : DB) (pre post : List Doc) (dd : Doc),
      is_valid id = true →
      db.bookings = pre ++ dd :: post →
      (∀ d' ∈ pre, getField d' "_id" ≠ some (.oid (normOid id))) →
      getField dd "_id" = some (.oid (normOid id)) →
      update_booking true id b db =
        (.ok (.msg "Booking updated"),
         { db with bookings := pre ++ setFields dd b.model_dump :: post })) := by
  refine ⟨fun d upd k h => getField_setFields_not_mem upd d k h, ?_, ?_, ?_, ?_, ?_, ?_, ?_, ?_⟩
  · intro d e
    refine ⟨?_, ?_, ?_, ?_, ?_⟩ <;>
      simp [Event.model_dump, setFields, List.foldl_cons, List.foldl_nil,
        getField_setField_self, getField_setField_ne]
  · intro d a
    refine ⟨?_, ?_, ?_⟩ <;>
      simp [Attendee.model_dump, setFields, List.foldl_cons, List.foldl_nil,
        getField_setField_self, getField_setField_ne]
  · intro d v
    refine ⟨?_, ?_, ?_⟩ <;>
      simp [Venue.model_dump, setFields, List.foldl_cons, List.foldl_nil,
        getField_setField_self, getField_setField_ne]
  · intro d b
    refine ⟨?_, ?_, ?_, ?_⟩ <;>
      simp [Booking.model_dump, setFields, List.foldl_cons, List.foldl_nil,
        getField_setField_self, getField_setField_ne]
  · intro id e db pre post dd hv hsplit hpre hdd
    have ho : oid id = .ok (normOid id) := by simp [oid, hv]
    simp [update_event, ho, hsplit,
      update_one_split pre dd post (normOid id) (Event.model_dump e) hpre hdd]
  · intro id a db pre post dd hv hsplit hpre hdd
    have ho : oid id = .ok (normOid id) := by simp [oid, hv]
    simp [update_attendee, ho, hsplit,
      update_one_split pre dd post (normOid id) (Attendee.model_dump a) hpre hdd]
  · intro id v db pre post dd hv hsplit hpre hdd
    have ho : oid id = .ok (normOid id) := by simp [oid, hv]
    simp [update_venue, ho, hsplit,
      update_one_split pre dd post (normOid id) (Venue.model_dump v) hpre hdd]
  · intro id b db pre post dd hv hsplit hpre hdd
    have ho : oid id = .ok (normOid id) := by simp [oid, hv]
    simp [update_booking, ho, hsplit,
      update_one_split pre dd post (normOid id) (Booking.model_dump b) hpre hdd]

/-- Witness for C4: updating a stored event document that carries an
extra field outside the schema; the update succeeds, replaces the
declared fields and keeps the extra field (checked by evaluation). -/
theorem update_replaces_exactly_schema_fields_witness :
    update_event true "0123456789abcdef01234567" ⟨"New", "D2", "2026-02-02", "v2", 5⟩
        { events := [[("_id", .oid "0123456789abcdef01234567"), ("name", .str "Old"),
          ("extra", .int 7)]] } =
      (.ok (.msg "Event updated"),
       { events := ([] : List Doc) ++ setFields
          [("_id", .oid "0123456789abcdef01234567"), ("name", .str "Old"), ("extra", .int 7)]
          (Event.model_dump ⟨"New", "D2", "2026-02-02", "v2", 5⟩) :: [] }) :=
  update_replaces_exactly_schema_fields.2.2.2.2.2.1 "0123456789abcdef01234567"
    ⟨"New", "D2", "2026-02-02", "v2", 5⟩
    { events := [[("_id", .oid "0123456789abcdef01234567"), ("name", .str "Old"),
      ("extra", .int 7)]] }
    [] []
    [("_id", .oid "0123456789abcdef01234567"), ("name", .str "Old"), ("extra", .int 7)]
    (by decide) rfl (fun d hd => absurd hd (List.not_mem_nil d)) (by decide)

theorem list_shape_aux (l : List Doc) :
    ((l.take 100).map fix_id).length ≤ 100 ∧
      (l.all hasId = true → ((l.take 100).map fix_id).all idIsStr = true) := by
  constructor
  · rw [List.length_map]
    exact l.length_take_le 100
  · intro hall
    rw [List.all_eq_true] at hall ⊢
    intro d hd
    rcases List.mem_map.mp hd with ⟨d0, hd0, rfl⟩
    have hm : d0 ∈ l := List.mem_of_mem_take hd0
    have hs := hall d0 hm
    unfold hasId at hs
    rcases Option.isSome_iff_exists.mp hs with ⟨v, hv⟩
    unfold idIsStr
    rw [fix_id_getField_of_getField d0 v hv]

/-- C6: for every entity type and every store state, the list
operation returns at most 100 documents, each with its id shaped to a
string (whenever the stored documents carry an `_id`, as the store
guarantees). -/
theorem list_returns_at_most_100 (db : DB) :
    (∀ r, list_events true db = .ok (.docs r) →
      r.length ≤ 100 ∧ (db.events.all hasId = true → r.all idIsStr = true)) ∧
    (∀ r, list_attendees true db = .ok (.docs r) →
      r.length ≤ 100 ∧ (db.attendees.all hasId = true → r.all idIsStr = true)) ∧
    (∀ r, list_venues true db = .ok (.docs r) →
      r.length ≤ 100 ∧ (db.venues.all hasId = true → r.all idIsStr = true)) ∧
    (∀ r, list_bookings true db = .ok (.docs r) →
      r.length ≤ 100 ∧ (db.bookings.all hasId = true → r.all idIsStr = true)) := by
  refine ⟨?_, ?_, ?_, ?_⟩ <;>
  · intro r hr
    simp only [list_events, list_attendees, list_venues, list_bookings, if_true,
      Except.ok.injEq, Resp.docs.injEq] at hr
    rw [← hr]
    exact list_shape_aux _

/-- Witness for C6: a one-document store listed back, cap and shaping
checked by evaluation. -/
theorem list_returns_at_most_100_witness :
    ([fix_id [("_id", Value.oid (genId 0)), ("name", Value.str "A")]] : List Doc).length ≤ 100 ∧
    (([[("_id", Value.oid (genId 0)), ("name", Value.str "A")]] : List Doc).all hasId = true →
      ([fix_id [("_id", Value.oid (genId 0)), ("name", Value.str "A")]] : List Doc).all idIsStr = true) :=
  (list_returns_at_most_100
      { events := [[("_id", .oid (genId 0)), ("name", .str "A")]] }).1
    [fix_id [("_id", .oid (genId 0)), ("name", .str "A")]] rfl

theorem get_doc_shaped_aux (coll : List Doc) (i : String) (doc : Doc)
    (hf : find_one coll i = some doc) : idIsStr (fix_id doc) = true := by
  rcases find_one_sound _ _ _ hf with ⟨_, hid⟩
  unfold idIsStr
  rw [fix_id_getField_of_getField _ _ hid]

/-- C7: every client-visible document produced by a list or get
operation carries its identifier as a string in `_id`, never as the
native ObjectId; and the shaper `fix_id` changes no field other than
`_id`. -/
theorem client_visible_id_is_string :
    (∀ (d : Doc) (k : String), k ≠ "_id" → getField (fix_id d) k = getField d k) ∧
    (∀ (d : Doc) (v : Value), getField d "_id" = some v →
      getField (fix_id d) "_id" = some (.str (valueStr v))) ∧
    (∀ (up : Bool) (id : String) (db : DB) (d : Doc),
      get_event up id db = .ok (.doc d) → idIsStr d = true) ∧
    (∀ (up : Bool) (id : String) (db : DB) (d : Doc),
      get_attendee up id db = .ok (.doc d) → idIsStr d = true) ∧
    (∀ (up : Bool) (id : String) (db : DB) (d : Doc),
      get_venue up id db = .ok (.doc d) → idIsStr d = true) ∧
    (∀ (up : Bool) (id : String) (db : DB) (d : Doc),
      get_booking up id db = .ok (.doc d) → idIsStr d = true) ∧
    (∀ (up : Bool) (db : DB) (r : List Doc), list_events up db = .ok (.docs r) →
      db.events.all hasId = true → r.all idIsStr = true) ∧
    (∀ (up : Bool) (db : DB) (r : List Doc), list_attendees up db = .ok (.docs r) →
      db.attendees.all hasId = true → r.all idIsStr = true) ∧
    (∀ (up : Bool) (db : DB) (r : List Doc), list_venues up db = .ok (.docs r) →
      db.venues.all hasId = true → r.all idIsStr = true) ∧
    (∀ (up : Bool) (db : DB) (r : List Doc), list_bookings up db = .ok (.docs r) →
      db.bookings.all hasId = true → r.all idIsStr = true) := by
  refine ⟨fun d k h => fix_id_getField_ne d k h, fun d v h => fix_id_getField_of_getField d v h,
    ?_, ?_, ?_, ?_, ?_, ?_, ?_, ?_⟩
  · intro up id db d h
    cases ho : oid id with
    | error e => simp [get_event, ho] at h
    | ok i =>
      cases up with
      | false => simp [get_event, ho] at h
      | true =>
        cases hf : find_one db.events i with
        | none => simp [get_event, ho, hf] at h
        | some doc =>
          simp [get_event, ho, hf] at h
          subst h
          exact get_doc_shaped_aux _ _ _ hf
  · intro up id db d h
    cases ho : oid id with
    | error e => simp [get_attendee, ho] at h
    | ok i =>
      cases up with
      | false => simp [get_attendee, ho] at h
      | true =>
        cases hf : find_one db.attendees i with
        | none => simp [get_attendee, ho, hf] at h
        | some doc =>
          simp [get_attendee, ho, hf] at h
          subst h
          exact get_doc_shaped_aux _ _ _ hf
  · intro up id db d h
    cases ho : oid id with
    | error e => simp [get_venue, ho] at h
    | ok i =>
      cases up with
      | false => simp [get_venue, ho] at h
      | true =>
        cases hf : find_one db.venues i with
        | none => simp [get_venue, ho, hf] at h
        | some doc =>
          simp [get_venue, ho, hf] at h
          subst h
          exact get_doc_shaped_aux _ _ _ hf
  · intro up id db d h
    cases ho : oid id with
    | error e => simp [get_booking, ho] at h
    | ok i =>
      cases up with
      | false => simp [get_booking, ho] at h
      | true =>
        cases hf : find_one db.bookings i with
        | none => simp [get_booking, ho, hf] at h
        | some doc =>
          simp [get_booking, ho, hf] at h
          subst h
          exact get_doc_shaped_aux _ _ _ hf
  · intro up db r h hall
    cases up with
    | false => simp [list_events] at h
    | true =>
      simp only [list_events, if_true, Except.ok.injEq, Resp.docs.injEq] at h
      rw [← h]
      exact (list_shape_aux _).2 hall
  · intro up db r h hall
    cases up with
    | false => simp [list_attendees] at h
    | true =>
      simp only [list_attendees, if_true, Except.ok.injEq, Resp.docs.injEq] at h
      rw [← h]
      exact (list_shape_aux _).2 hall
  · intro up db r h hall
    cases up with
    | false => simp [list_venues] at h
    | true =>
      simp only [list_venues, if_true, Except.ok.injEq, Resp.docs.injEq] at h
      rw [← h]
      exact (list_shape_aux _).2 hall
  · intro up db r h hall
    cases up with
    | false => simp [list_bookings] at h
    | true =>
      simp only [list_bookings, if_true, Except.ok.injEq, Resp.docs.injEq] at h
      rw [← h]
      exact (list_shape_aux _).2 hall

/-- Witness for C7: the shaper leaves the "name" field of a concrete
document untouched. -/
theorem client_visible_id_is_string_witness :
    getField (fix_id [("_id", Value.oid (genId 0)), ("name", Value.str "A")]) "name" =
      getField [("_id", Value.oid (genId 0)), ("name", Value.str "A")] "name" :=
  client_visible_id_is_string.1 [("_id", .oid (genId 0)), ("name", .str "A")] "name" (by decide)

theorem getField_assetDoc_owner (i k s : String) (f : UploadFile) (t : Nat)
    (h : k ≠ "_id") : getField (assetDoc i k s f t) k = some (.str s) := by
  simp [assetDoc, getField, Ne.symm h]

theorem tsOf_assetDoc (i k s : String) (f : UploadFile) (t : Nat)
    (h : k ≠ "uploaded_at") : tsOf (assetDoc i k s f t) = t := by
  simp [assetDoc, tsOf, getField, h]

theorem bytesAt_assetDoc (i k s : String) (f : UploadFile) (t : Nat)
    (h : k ≠ "content") : bytesAt (assetDoc i k s f t) "content" = f.content := by
  simp [assetDoc, bytesAt, getField, h]

theorem strAt_assetDoc_ctype (i k s : String) (f : UploadFile) (t : Nat)
    (h : k ≠ "content_type") :
    strAt (assetDoc i k s f t) "content_type" = f.content_type := by
  simp [assetDoc, strAt, getField, h]

theorem fetch_latest_roundtrip_aux (coll : List Doc) (key s : String)
    (f1 f2 : UploadFile) (t1 t2 : Nat) (i1 i2 : String)
    (hkey_id : key ≠ "_id") (hkey_ts : key ≠ "uploaded_at")
    (h12 : t1 < t2) (hall : ∀ d ∈ coll, tsOf d < t2) :
    find_latest (coll ++ [assetDoc i1 key s f1 t1, assetDoc i2 key s f2 t2])
        key (.str s) = some (assetDoc i2 key s f2 t2) := by
  have hm1 : getField (assetDoc i1 key s f1 t1) key = some (.str s) :=
    getField_assetDoc_owner _ _ _ _ _ hkey_id
  have hm2 : getField (assetDoc i2 key s f2 t2) key = some (.str s) :=
    getField_assetDoc_owner _ _ _ _ _ hkey_id
  have hts1 : tsOf (assetDoc i1 key s f1 t1) = t1 := tsOf_assetDoc _ _ _ _ _ hkey_ts
  have hts2 : tsOf (assetDoc i2 key s f2 t2) = t2 := tsOf_assetDoc _ _ _ _ _ hkey_ts
  have hmatch : matchingAssets (coll ++ [assetDoc i1 key s f1 t1, assetDoc i2 key s f2 t2])
      key (.str s) =
      matchingAssets coll key (.str s) ++ [assetDoc i1 key s f1 t1, assetDoc i2 key s f2 t2] := by
    rw [matchingAssets_append]
    simp [matchingAssets, hm1, hm2]
  cases hf : find_latest (coll ++ [assetDoc i1 key s f1 t1, assetDoc i2 key s f2 t2])
      key (.str s) with
  | none =>
    rw [find_latest_eq_none_iff, hmatch] at hf
    simp at hf
  | some dmax =>
    rcases find_latest_spec _ _ _ _ hf with ⟨hmem, hmax⟩
    rw [hmatch] at hmem hmax
    have hd2 : tsOf (assetDoc i2 key s f2 t2) ≤ tsOf dmax := hmax _ (by simp)
    rw [hts2] at hd2
    rcases List.mem_append.mp hmem with hm0 | hm12
    · have hlt := hall dmax (mem_of_mem_matchingAssets _ _ _ _ hm0)
      omega
    · rcases List.mem_cons.mp hm12 with heq | hm2
      · rw [heq, hts1] at hd2
        omega
      · have heq : dmax = assetDoc i2 key s f2 t2 := by simpa using hm2
        rw [heq]

/-- C3: for every owning id, uploading two asset records in sequence
(the second strictly later, all pre-existing records older) and then
fetching returns exactly the later upload's bytes and declared content
type; in general fetch selects a matching record of maximum upload
timestamp and answers 404 when none match. Shown for all three asset
kinds (poster, promo video, venue photo). -/
theorem latest_asset_wins :
    (∀ (coll : List Doc) (k : String) (v : Value),
      (find_latest coll k v = none ↔ matchingAssets coll k v = []) ∧
      (∀ d, find_latest coll k v = some d →
        d ∈ matchingAssets coll k v ∧ ∀ e ∈ matchingAssets coll k v, tsOf e ≤ tsOf d)) ∧
    (∀ (s : String) (f1 f2 : UploadFile) (t1 t2 : Nat) (db : DB),
      t1 < t2 → (∀ d ∈ db.event_posters, tsOf d < t2) →
      get_event_poster true s
          (upload_event_poster true s f2 t2 (upload_event_poster true s f1 t1 db).2).2 =
        .ok (.file f2.content f2.content_type)) ∧
    (∀ (s : String) (db : DB),
      matchingAssets db.event_posters "event_id" (.str s) = [] →
      get_event_poster true s db = .error (.http ⟨404, "Poster not found"⟩)) ∧
    (∀ (s : String) (f1 f2 : UploadFile) (t1 t2 : Nat) (db : DB),
      t1 < t2 → (∀ d ∈ db.promo_videos, tsOf d < t2) →
      get_promo_video true s
          (upload_promo_video true s f2 t2 (upload_promo_video true s f1 t1 db).2).2 =
        .ok (.file f2.content f2.content_type)) ∧
    (∀ (s : String) (db : DB),
      matchingAssets db.promo_videos "event_id" (.str s) = [] →
      get_promo_video true s db = .error (.http ⟨404, "Promo video not found"⟩)) ∧
    (∀ (s : String) (f1 f2 : UploadFile) (t1 t2 : Nat) (db : DB),
      t1 < t2 → (∀ d ∈ db.venue_photos, tsOf d < t2) →
      get_venue_photo true s
          (upload_venue_photo true s f2 t2 (upload_venue_photo true s f1 t1 db).2).2 =
        .ok (.file f2.content f2.content_type)) ∧
    (∀ (s : String) (db : DB),
      matchingAssets db.venue_photos "venue_id" (.str s) = [] →
      get_venue_photo true s db = .error (.http ⟨404, "Venue photo not found"⟩)) := by
  refine ⟨fun coll k v => ⟨find_latest_eq_none_iff coll k v,
    fun d h => find_latest_spec coll k v d h⟩, ?_, ?_, ?_, ?_, ?_, ?_⟩
  · intro s f1 f2 t1 t2 db h12 hall
    simp only [upload_event_poster, if_true]
    have hf := fetch_latest_roundtrip_aux db.event_posters "event_id" s f1 f2 t1 t2
      (genId db.nextId) (genId (db.nextId + 1)) (by decide) (by decide) h12 hall
    simp [get_event_poster, hf, bytesAt_assetDoc, strAt_assetDoc_ctype]
  · intro s db h
    simp [get_event_poster, (find_latest_eq_none_iff _ _ _).mpr h]
  · intro s f1 f2 t1 t2 db h12 hall
    simp only [upload_promo_video, if_true]
    have hf := fetch_latest_roundtrip_aux db.promo_videos "event_id" s f1 f2 t1 t2
      (genId db.nextId) (genId (db.nextId + 1)) (by decide) (by decide) h12 hall
    simp [get_promo_video, hf, bytesAt_assetDoc, strAt_assetDoc_ctype]
  · intro s db h
    simp [get_promo_video, (find_latest_eq_none_iff _ _ _).mpr h]
  · intro s f1 f2 t1 t2 db h12 hall
    simp only [upload_venue_photo, if_true]
    have hf := fetch_latest_roundtrip_aux db.venue_photos "venue_id" s f1 f2 t1 t2
      (genId db.nextId) (genId (db.nextId + 1)) (by decide) (by decide) h12 hall
    simp [get_venue_photo, hf, bytesAt_assetDoc, strAt_assetDoc_ctype]
  · intro s db h
    simp [get_venue_photo, (find_latest_eq_none_iff _ _ _).mpr h]

/-- Witness for C3: two posters uploaded for the same event id into the
empty store; the fetch returns the second upload's bytes and type. -/
theorem latest_asset_wins_witness :
    get_event_poster true "e1"
        (upload_event_poster true "e1" ⟨"b.jpg", "image/jpeg", [2, 3]⟩ 2
          (upload_event_poster true "e1" ⟨"a.png", "image/png", [1]⟩ 1 {}).2).2 =
      .ok (.file [2, 3] "image/jpeg") :=
  latest_asset_wins.2.1 "e1" ⟨"a.png", "image/png", [1]⟩ ⟨"b.jpg", "image/jpeg", [2, 3]⟩
    1 2 {} (by decide) (fun d hd => absurd hd (List.not_mem_nil d))

/-- C8 counterexample: with the store unreachable, the health-check
root request still answers 200 `{"status":"ok"}` — it performs no
store operation — so it is not the case that every request results in
the 503 response. -/
theorem store_down_root_still_ok :
    (app_dispatch false Request.root 0 {}).1 = .ok Resp.statusOk ∧
    (app_dispatch false Request.root 0 {}).1 ≠ .error mongo_unavailable_handler :=
  ⟨rfl, by simp [app_dispatch, handle, root]⟩

/-- C8 as amended: with the store unreachable, every request that
reaches a store operation — every route except the root health check,
and for the id-validated routes only once the id passes validation —
results in the fixed 503 remediation response, with the store state
unchanged; the root request alone still answers ok. -/
theorem store_down_yields_503 (now : Nat) (db : DB) (e : Event) (a : Attendee)
    (v : Venue) (b : Booking) (f : UploadFile) (s : String) :
    app_dispatch false .root now db = (.ok root, db) ∧
    (is_valid s = true →
      app_dispatch false (.getEvent s) now db = (.error mongo_unavailable_handler, db)) ∧
    (is_valid s = true →
      app_dispatch false (.updateEvent s e) now db = (.error mongo_unavailable_handler, db)) ∧
    (is_valid s = true →
      app_dispatch false (.deleteEvent s) now db = (.error mongo_unavailable_handler, db)) ∧
    (is_valid s = true →
      app_dispatch false (.getAttendee s) now db = (.error mongo_unavailable_handler, db)) ∧
    (is_valid s = true →
      app_dispatch false (.updateAttendee s a) now db = (.error mongo_unavailable_handler, db)) ∧
    (is_valid s = true →
      app_dispatch false (.deleteAttendee s) now db = (.error mongo_unavailable_handler, db)) ∧
    (is_valid s = true →
      app_dispatch false (.getVenue s) now db = (.error mongo_unavailable_handler, db)) ∧
    (is_valid s = true →
      app_dispatch false (.updateVenue s v) now db = (.error mongo_unavailable_handler, db)) ∧
    (is_valid s = true →
      app_dispatch false (.deleteVenue s) now db = (.error mongo_unavailable_handler, db)) ∧
    (is_valid s = true →
      app_dispatch false (.getBooking s) now db = (.error mongo_unavailable_handler, db)) ∧
    (is_valid s = true →
      app_dispatch false (.updateBooking s b) now db = (.error mongo_unavailable_handler, db)) ∧
    (is_valid s = true →
      app_dispatch false (.deleteBooking s) now db = (.error mongo_unavailable_handler, db)) ∧
    app_dispatch false (.createEvent e) now db = (.error mongo_unavailable_handler, db) ∧
    app_dispatch false .listEvents now db = (.error mongo_unavailable_handler, db) ∧
    app_dispatch false (.createAttendee a) now db = (.error mongo_unavailable_handler, db) ∧
    app_dispatch false .listAttendees now db = (.error mongo_unavailable_handler, db) ∧
    app_dispatch false (.createVenue v) now db = (.error mongo_unavailable_handler, db) ∧
    app_dispatch false .listVenues now db = (.error mongo_unavailable_handler, db) ∧
    app_dispatch false (.createBooking b) now db = (.error mongo_unavailable_handler, db) ∧
    app_dispatch false .listBookings now db = (.error mongo_unavailable_handler, db) ∧
    app_dispatch false (.uploadEventPoster s f) now db = (.error mongo_unavailable_handler, db) ∧
    app_dispatch false (.getEventPoster s) now db = (.error mongo_unavailable_handler, db) ∧
    app_dispatch false (.uploadPromoVideo s f) now db = (.error mongo_unavailable_handler, db) ∧
    app_dispatch false (.getPromoVideo s) now db = (.error mongo_unavailable_handler, db) ∧
    app_dispatch false (.uploadVenuePhoto s f) now db = (.error mongo_unavailable_handler, db) ∧
    app_dispatch false (.getVenuePhoto s) now db = (.error mongo_unavailable_handler, db) := by
  refine ⟨rfl, ?_, ?_, ?_, ?_, ?_, ?_, ?_, ?_, ?_, ?_, ?_, ?_, ?_, ?_, ?_, ?_, ?_, ?_,
    ?_, ?_, ?_, ?_, ?_, ?_, ?_, ?_⟩ <;>
  first
  | (intro h
     simp [app_dispatch, handle, get_event, update_event, delete_event, get_attendee,
       update_attendee, delete_attendee, get_venue, update_venue, delete_venue,
       get_booking, update_booking, delete_booking, oid, h])
  | simp [app_dispatch, handle, create_event, list_events, create_attendee,
      list_attendees, create_venue, list_venues, create_booking, list_bookings,
      upload_event_poster, get_event_poster, upload_promo_video, get_promo_video,
      upload_venue_photo, get_venue_photo]

/-- Witness for the amended C8: a well-formed-id get with the store
down receives the fixed 503 response. -/
theorem store_down_yields_503_witness :
    app_dispatch false (.getEvent "0123456789abcdef01234567") 0 {} =
      (.error mongo_unavailable_handler, {}) :=
  (store_down_yields_503 0 {} ⟨"n", "d", "dt", "v", 1⟩ ⟨"n", "e@x.io", none⟩
    ⟨"n", "addr", 1⟩ ⟨"e", "a", "vip", 1⟩ ⟨"f.bin", "application/x", []⟩
    "0123456789abcdef01234567").2.1 (by decide)

theorem chainStep (a rest : Option String) (fne : Option String)
    (h : (match rest with
          | none => Except.error missingUriMsg
          | some s => if s = "" then Except.error missingUriMsg else Except.ok s) =
         (match fne with
          | some s => Except.ok s
          | none => Except.error missingUriMsg)) :
    (match orFalsy a rest with
     | none => Except.error missingUriMsg
     | some s => if s = "" then Except.error missingUriMsg else Except.ok s) =
    (match (match a with
            | some s => if s = "" then fne else some s
            | none => fne) with
     | some s => Except.ok s
     | none => Except.error missingUriMsg) := by
  cases a with
  | none => simpa [orFalsy] using h
  | some s =>
    by_cases hs : s = ""
    · simpa [orFalsy, hs] using h
    · simp [orFalsy, hs]

/-- C9: the startup connection string is the value of the first
recognised environment variable (in the order MONGO_URI, MONGO_URL,
MONGODB_URI, MONGODB_URL, mango_Url) that is set to a non-empty
string; when none is, startup fails with the fixed RuntimeError
message. -/
theorem mongo_uri_first_nonempty_wins (env : String → Option String) :
    startup env =
      match firstNonEmptyEnv env mongoEnvNames with
      | some s => Except.ok s
      | none => Except.error missingUriMsg := by
  have hunfold : ∀ (n : String) (ns : List String),
      firstNonEmptyEnv env (n :: ns) =
        match env n with
        | some s => if s = "" then firstNonEmptyEnv env ns else some s
        | none => firstNonEmptyEnv env ns := fun n ns => rfl
  have hbase :
      (match env "mango_Url" with
       | none => Except.error missingUriMsg
       | some s => if s = "" then Except.error missingUriMsg else Except.ok s) =
      (match firstNonEmptyEnv env ["mango_Url"] with
       | some s => Except.ok s
       | none => Except.error missingUriMsg) := by
    rw [hunfold]
    cases h : env "mango_Url" with
    | none => simp [firstNonEmptyEnv]
    | some s => by_cases hs : s = "" <;> simp [hs, firstNonEmptyEnv]
  unfold startup mongo_uri
  simp only [mongoEnvNames]
  rw [hunfold, hunfold, hunfold, hunfold]
  exact chainStep _ _ _ (chainStep _ _ _ (chainStep _ _ _ (chainStep _ _ _ hbase)))

/-- Witness for C9: with only MONGO_URL set (and MONGO_URI set but
empty), startup picks MONGO_URL's value. -/
theorem mongo_uri_first_nonempty_wins_witness :
    startup (fun n => if n = "MONGO_URI" then some "" else
        if n = "MONGO_URL" then some "mongodb://h" else none) =
      match firstNonEmptyEnv (fun n => if n = "MONGO_URI" then some "" else
        if n = "MONGO_URL" then some "mongodb://h" else none) mongoEnvNames with
      | some s => Except.ok s
      | none => Except.error missingUriMsg :=
  mongo_uri_first_nonempty_wins
    (fun n => if n = "MONGO_URI" then some "" else
      if n = "MONGO_URL" then some "mongodb://h" else none)

/-- C10: the binary asset endpoints apply no id-format validation: for
every path string, upload appends a new record keyed by that exact
string and fetch queries by that exact string (404 exactly when no
record matches), and neither ever answers 400 "Invalid id format". -/
theorem asset_endpoints_skip_id_validation :
    (∀ (s : String) (f : UploadFile) (now : Nat) (db : DB),
      upload_event_poster true s f now db =
        (.ok (.created "Event poster uploaded" (genId db.nextId)),
         { db with event_posters := db.event_posters ++ [assetDoc (genId db.nextId) "event_id" s f now],
                   nextId := db.nextId + 1 }) ∧
      getField (assetDoc (genId db.nextId) "event_id" s f now) "event_id" = some (.str s)) ∧
    (∀ (s : String) (db : DB),
      (get_event_poster true s db = .error (.http ⟨404, "Poster not found"⟩) ↔
        matchingAssets db.event_posters "event_id" (.str s) = [])) ∧
    (∀ (s : String) (f : UploadFile) (now : Nat) (up : Bool) (db : DB),
      (upload_event_poster up s f now db).1 ≠ .error (.http ⟨400, "Invalid id format"⟩) ∧
      get_event_poster up s db ≠ .error (.http ⟨400, "Invalid id format"⟩)) ∧
    (∀ (s : String) (f : UploadFile) (now : Nat) (db : DB),
      upload_promo_video true s f now db =
        (.ok (.created "Promo video uploaded" (genId db.nextId)),
         { db with promo_videos := db.promo_videos ++ [assetDoc (genId db.nextId) "event_id" s f now],
                   nextId := db.nextId + 1 }) ∧
      getField (assetDoc (genId db.nextId) "event_id" s f now) "event_id" = some (.str s)) ∧
    (∀ (s : String) (db : DB),
      (get_promo_video true s db = .error (.http ⟨404, "Promo video not found"⟩) ↔
        matchingAssets db.promo_videos "event_id" (.str s) = [])) ∧
    (∀ (s : String) (f : UploadFile) (now : Nat) (up : Bool) (db : DB),
      (upload_promo_video up s f now db).1 ≠ .error (.http ⟨400, "Invalid id format"⟩) ∧
      get_promo_video up s db ≠ .error (.http ⟨400, "Invalid id format"⟩)) ∧
    (∀ (s : String) (f : UploadFile) (now : Nat) (db : DB),
      upload_venue_photo true s f now db =
        (.ok (.created "Venue photo uploaded" (genId db.nextId)),
         { db with venue_photos := db.venue_photos ++ [assetDoc (genId db.nextId) "venue_id" s f now],
                   nextId := db.nextId + 1 }) ∧
      getField (assetDoc (genId db.nextId) "venue_id" s f now) "venue_id" = some (.str s)) ∧
    (∀ (s : String) (db : DB),
      (get_venue_photo true s db = .error (.http ⟨404, "Venue photo not found"⟩) ↔
        matchingAssets db.venue_photos "venue_id" (.str s) = [])) ∧
    (∀ (s : String) (f : UploadFile) (now : Nat) (up : Bool) (db : DB),
      (upload_venue_photo up s f now db).1 ≠ .error (.http ⟨400, "Invalid id format"⟩) ∧
      get_venue_photo up s db ≠ .error (.http ⟨400, "Invalid id format"⟩)) := by
  refine ⟨?_, ?_, ?_, ?_, ?_, ?_, ?_, ?_, ?_⟩
  · intro s f now db
    exact ⟨by simp [upload_event_poster], getField_assetDoc_owner _ _ _ _ _ (by decide)⟩
  · intro s db
    constructor
    · intro h
      cases hf : find_latest db.event_posters "event_id" (.str s) with
      | none => exact (find_latest_eq_none_iff _ _ _).mp hf
      | some d => simp [get_event_poster, hf] at h
    · intro h
      simp [get_event_poster, (find_latest_eq_none_iff _ _ _).mpr h]
  · intro s f now up db
    cases up with
    | false => exact ⟨by simp [upload_event_poster], by simp [get_event_poster]⟩
    | true =>
      refine ⟨by simp [upload_event_poster], ?_⟩
      cases hf : find_latest db.event_posters "event_id" (.str s) with
      | none => simp [get_event_poster, hf]
      | some d => simp [get_event_poster, hf]
  · intro s f now db
    exact ⟨by simp [upload_promo_video], getField_assetDoc_owner _ _ _ _ _ (by decide)⟩
  · intro s db
    constructor
    · intro h
      cases hf : find_latest db.promo_videos "event_id" (.str s) with
      | none => exact (find_latest_eq_none_iff _ _ _).mp hf
      | some d => simp [get_promo_video, hf] at h
    · intro h
      simp [get_promo_video, (find_latest_eq_none_iff _ _ _).mpr h]
  · intro s f now up db
    cases up with
    | false => exact ⟨by simp [upload_promo_video], by simp [get_promo_video]⟩
    | true =>
      refine ⟨by simp [upload_promo_video], ?_⟩
      cases hf : find_latest db.promo_videos "event_id" (.str s) with
      | none => simp [get_promo_video, hf]
      | some d => simp [get_promo_video, hf]
  · intro s f now db
    exact ⟨by simp [upload_venue_photo], getField_assetDoc_owner _ _ _ _ _ (by decide)⟩
  · intro s db
    constructor
    · intro h
      cases hf : find_latest db.venue_photos "venue_id" (.str s) with
      | none => exact (find_latest_eq_none_iff _ _ _).mp hf
      | some d => simp [get_venue_photo, hf] at h
    · intro h
      simp [get_venue_photo, (find_latest_eq_none_iff _ _ _).mpr h]
  · intro s f now up db
    cases up with
    | false => exact ⟨by simp [upload_venue_photo], by simp [get_venue_photo]⟩
    | true =>
      refine ⟨by simp [upload_venue_photo], ?_⟩
      cases hf : find_latest db.venue_photos "venue_id" (.str s) with
      | none => simp [get_venue_photo, hf]
      | some d => simp [get_venue_photo, hf]

/-- Witness for C10: an id the codec rejects ("not-an-id") is accepted
verbatim by the poster upload endpoint and stored keyed by it. -/
theorem asset_endpoints_skip_id_validation_witness :
    upload_event_poster true "not-an-id" ⟨"a.png", "image/png", [1]⟩ 5 {} =
      (.ok (.created "Event poster uploaded" (genId 0)),
       { event_posters := [assetDoc (genId 0) "event_id" "not-an-id" ⟨"a.png", "image/png", [1]⟩ 5],
         nextId := 1 }) ∧
    getField (assetDoc (genId 0) "event_id" "not-an-id" ⟨"a.png", "image/png", [1]⟩ 5)
      "event_id" = some (.str "not-an-id") :=
  (asset_endpoints_skip_id_validation.1 "not-an-id" ⟨"a.png", "image/png", [1]⟩ 5 {})

end EventMgmt
